import Mathlib

/-!
Verification development for the apollo-io-mcp-server tool-dispatch core.

The definitions below are a shallow embedding of the TypeScript sources:
  - `src/types/tool-response.ts`   (response contract and builders)
  - `src/utils/base-tool-handler.ts` (rate limiting, validation, error
    classification; the file appears concatenated into
    `src/monitoring/worker-monitoring.ts` in this checkout)
  - `src/tools/lead-tools.ts`      (searchLeads and bulkEnrichContacts)
  - `src/apollo-tools-orchestrator.ts` (dispatch and boundary classification)
  - `src/server-refactored.ts`     (POST routing and the SSE heartbeat)

JavaScript runtime values that flow through untyped positions are modelled by
the inductive `JsVal`; machine time is an `Int` number of milliseconds; thrown
exceptions are modelled with `Except` (a thrown value is either an `Error`
object carrying a message, or an arbitrary non-Error value).  External
collaborators that the sources call but do not define (the Apollo API client,
`JSON.stringify`, request-id generation) are abstract parameters.
-/

/-- Model of a JavaScript runtime value as it flows through the untyped
(`unknown`) positions of the sources.  `undefined` is its own
constructor; an absent object field reads as `undefined`, matching
JavaScript. -/
inductive JsVal where
  | null : JsVal
  | undefined : JsVal
  | bool : Bool → JsVal
  | num : Int → JsVal
  | str : String → JsVal
  | arr : List JsVal → JsVal
  | obj : List (String × JsVal) → JsVal

/-- Property access `params[field]` on a JavaScript value: object fields are
looked up by name, anything else yields `undefined`. -/
def jsField (params : JsVal) (f : String) : JsVal :=
  match params with
  | .obj fs => (fs.lookup f).getD .undefined
  | _ => .undefined

/-- JavaScript truthiness of a value, as used by `!x` and `x ? _ : _` and
`x || y` in the sources. -/
def jsTruthy (v : JsVal) : Bool :=
  match v with
  | .null => false
  | .undefined => false
  | .bool b => b
  | .num n => n != 0
  | .str s => s ≠ ""
  | .arr _ => true
  | .obj _ => true

/-- JavaScript `x || y` (returns the first operand when truthy). -/
def jsOr (x y : JsVal) : JsVal := if jsTruthy x then x else y

/-- String coercion as performed by template literals (`String(v)`). -/
def jsDisplay (v : JsVal) : String :=
  match v with
  | .null => "null"
  | .undefined => "undefined"
  | .bool b => if b then "true" else "false"
  | .num n => toString n
  | .str s => s
  | .arr l => String.intercalate "," (l.map fun x => jsDisplayShallow x)
  | .obj _ => "[object Object]"
where
  /-- One-level coercion for array elements (nested arrays flatten in JS;
  the sources never display nested arrays, so one level suffices). -/
  jsDisplayShallow : JsVal → String
  | .null => ""
  | .undefined => ""
  | .bool b => if b then "true" else "false"
  | .num n => toString n
  | .str s => s
  | .arr _ => ""
  | .obj _ => "[object Object]"

/-- `v.length` as read by the sources: defined for arrays and strings,
`undefined` (here `none`) otherwise. -/
def jsLen (v : JsVal) : Option Nat :=
  match v with
  | .arr l => some l.length
  | .str s => some s.length
  | _ => none

/-- A thrown JavaScript value: an `Error` object carrying a message, or a
non-Error value (the sources test `error instanceof Error`). -/
inductive Thrown where
  | err : String → Thrown
  | nonError : String → Thrown
deriving Repr, DecidableEq

/-- Whether the character list `p` begins the character list `l`. -/
def charsLead : List Char → List Char → Bool
  | [], _ => true
  | _ :: _, [] => false
  | a :: as, b :: bs => a == b && charsLead as bs

/-- Whether the character list `p` occurs contiguously inside `l`. -/
def charsInside (p : List Char) : List Char → Bool
  | [] => p.isEmpty
  | b :: bs => charsLead p (b :: bs) || charsInside p bs

/-- `haystack.includes(needle)` on strings, as used by the error
classifiers. -/
def strIncludes (s pat : String) : Bool :=
  charsInside pat.data s.data

/-- `s.startsWith(p)` on strings; used to state the mock-mode properties. -/
def strStartsWith (s pat : String) : Bool :=
  charsLead pat.data s.data

/-! ## Response/Error contract (`src/types/tool-response.ts`) -/

/-- One content block of a tool response; the `type` discriminator is the
literal string `text` for every block the sources ever build, so only the
text payload is carried. -/
structure IToolContent where
  text : String
deriving Repr, DecidableEq

/-- The standardized response envelope `IToolResponse`. -/
structure IToolResponse where
  content : List IToolContent
  isError : Bool
  errorCode : Option String
  requestId : Option String
deriving Repr, DecidableEq

/-- The closed `ErrorCode` union type of `tool-response.ts`. -/
inductive ErrorCode where
  | rateLimitExceeded
  | invalidParameters
  | apiError
  | authenticationFailed
  | networkError
  | mockMode
  | internalError
deriving Repr, DecidableEq

/-- The string constant each member of `ERROR_CODES` is bound to. -/
def ErrorCode.code : ErrorCode → String
  | .rateLimitExceeded => "RATE_LIMIT_EXCEEDED"
  | .invalidParameters => "INVALID_PARAMETERS"
  | .apiError => "API_ERROR"
  | .authenticationFailed => "AUTHENTICATION_FAILED"
  | .networkError => "NETWORK_ERROR"
  | .mockMode => "MOCK_MODE"
  | .internalError => "INTERNAL_ERROR"

/-- The closed set of error-code strings (the values of `ERROR_CODES`). -/
def errorCodeSet : List String :=
  ["RATE_LIMIT_EXCEEDED", "INVALID_PARAMETERS", "API_ERROR",
   "AUTHENTICATION_FAILED", "NETWORK_ERROR", "MOCK_MODE", "INTERNAL_ERROR"]

namespace ToolResponseBuilder

/-- `ToolResponseBuilder.success(text, requestId)`. -/
def success (text : String) (requestId : Option String) : IToolResponse :=
  { content := [{ text := text }], isError := false, errorCode := none,
    requestId := requestId }

/-- `ToolResponseBuilder.error(text, errorCode, requestId)`; the
`errorCode` argument is constrained by its TypeScript type to the closed
`ErrorCode` union. -/
def error (text : String) (errorCode : ErrorCode) (requestId : Option String) :
    IToolResponse :=
  { content := [{ text := text }], isError := true,
    errorCode := some errorCode.code, requestId := requestId }

/-- `ToolResponseBuilder.mockResponse(mockData, requestId)`. -/
def mockResponse (mockData : String) (requestId : Option String) :
    IToolResponse :=
  { content := [{ text := "[MOCK MODE] " ++ mockData }], isError := false,
    errorCode := none, requestId := requestId }

end ToolResponseBuilder

/-- The text of the first content block of an envelope (every envelope the
builders produce has exactly one block). -/
def IToolResponse.firstText (r : IToolResponse) : String :=
  match r.content with
  | [] => ""
  | c :: _ => c.text

/-! ## BaseToolHandler (`src/utils/base-tool-handler.ts`) -/

/-- The sliding-window check of `BaseToolHandler.checkRateLimit`, acting on
the bucket of one tool name.  `now` is `Date.now()` in milliseconds and
`quota` is `this.maxRequestsPerMinute`.  On admission the updated bucket
(stale entries dropped, `now` appended) is returned; on rejection the method
throws an `Error` whose message is returned here, and the tracker entry is
left untouched because the `set` call is never reached. -/
def checkRateLimit (toolName : String) (bucket : List Int) (now : Int)
    (quota : Nat) : Except String (List Int) :=
  let windowStart := now - 60000
  let recentRequests := bucket.filter (fun timestamp => windowStart < timestamp)
  if quota ≤ recentRequests.length then
    .error ("Rate limit exceeded for " ++ toolName ++ ". Maximum " ++
      toString quota ++ " requests per minute allowed.")
  else
    .ok (recentRequests ++ [now])

/-- The same check at the level of the `rateLimitTracker` map (modelled as a
total function with the absent-entry default `[]`, observationally equal to
the `has`/`set`-guarded `Map` of the source).  The pair returned is the
thrown-or-ok outcome and the post-state of the map. -/
def runCheckRateLimit (tracker : String → List Int) (toolName : String)
    (now : Int) (quota : Nat) : Except String Unit × (String → List Int) :=
  match checkRateLimit toolName (tracker toolName) now quota with
  | .error m => (.error m, tracker)
  | .ok b => (.ok (), fun k => if k = toolName then b else tracker k)

/-- `BaseToolHandler.handleError`: classifies a caught value into an error
envelope by substring-matching the message of `Error` objects, with
`INTERNAL_ERROR` for non-Error thrown values. -/
def handleError (e : Thrown) (toolName : String) (requestId : Option String) :
    IToolResponse :=
  match e with
  | .err msg =>
    if strIncludes msg "Rate limit exceeded" then
      ToolResponseBuilder.error msg .rateLimitExceeded requestId
    else if strIncludes msg "authentication" then
      ToolResponseBuilder.error
        ("Authentication failed for " ++ toolName ++ ": " ++ msg)
        .authenticationFailed requestId
    else if strIncludes msg "network" || strIncludes msg "fetch" then
      ToolResponseBuilder.error ("Network error in " ++ toolName ++ ": " ++ msg)
        .networkError requestId
    else
      ToolResponseBuilder.error ("API error in " ++ toolName ++ ": " ++ msg)
        .apiError requestId
  | .nonError s =>
    ToolResponseBuilder.error ("Internal error in " ++ toolName ++ ": " ++ s)
      .internalError requestId

/-- The field-missing test of `validateRequired`: the thrown branch fires
when the field is absent (`!(field in params)` — here reading as
`undefined`), or bound to `null` or `undefined`. -/
def fieldMissing (params : JsVal) (f : String) : Bool :=
  match jsField params f with
  | .undefined => true
  | .null => true
  | _ => false

/-- `BaseToolHandler.validateRequired(params, requiredFields, toolName)`:
throws for a non-object bag (in JavaScript, `null` and primitives fail the
`!params || typeof params !== "object"` test while arrays pass it), then
throws on the first missing required field. -/
def validateRequired (params : JsVal) (requiredFields : List String)
    (toolName : String) : Except String Unit :=
  match params with
  | .obj _ => checkFields params requiredFields toolName
  | .arr _ => checkFields params requiredFields toolName
  | _ => .error ("Invalid parameters for " ++ toolName ++ ": expected object")
where
  checkFields (params : JsVal) : List String → String → Except String Unit
  | [], _ => .ok ()
  | f :: fs, toolName =>
    if fieldMissing params f then
      .error ("Missing required parameter for " ++ toolName ++ ": " ++ f)
    else
      checkFields params fs toolName

/-- `BaseToolHandler.createSuccessResponse(data, message, requestId)`.
`stringify` abstracts the `JSON.stringify(data, null, 2)` builtin. -/
def createSuccessResponse (stringify : JsVal → String) (data : JsVal)
    (message : Option String) (requestId : Option String) : IToolResponse :=
  let formattedMessage := message.getD "Operation completed successfully"
  ToolResponseBuilder.success (formattedMessage ++ "\n\n" ++ stringify data)
    requestId

/-- `BaseToolHandler.createMockResponse(mockData, toolName, requestId)`. -/
def createMockResponse (stringify : JsVal → String) (mockData : JsVal)
    (toolName : String) (requestId : Option String) : IToolResponse :=
  ToolResponseBuilder.mockResponse
    ("Mock response for " ++ toolName ++ ":\n\n" ++ stringify mockData)
    requestId

/-! ## LeadTools (`src/tools/lead-tools.ts`) -/

/-- The handler execution context: `hasApiClient` models
`this.apiClient !== null` (the constructor sets `isMockMode` to its
negation), `maxRequestsPerMinute` the configured quota, `stringify` the
`JSON.stringify` builtin, and `searchPeople` the opaque Apollo API client
call (returning `response.people` or throwing). -/
structure HandlerCtx where
  hasApiClient : Bool
  maxRequestsPerMinute : Nat
  stringify : JsVal → String
  searchPeople : JsVal → Except Thrown (List JsVal)

/-- The number of mock leads generated: `Math.min(limit, 10)`; when `limit`
is not a number `Math.min` yields `NaN` and the generating loop body never
runs. -/
def mockLeadCount (limit : JsVal) : Nat :=
  match limit with
  | .num n => (min n 10).toNat
  | _ => 0

/-- `LeadTools.generateMockLeads(jobTitle, industry, companySize, location,
limit)`. -/
def generateMockLeads (jobTitle industry companySize location limit : JsVal) :
    List JsVal :=
  (List.range (mockLeadCount limit)).map fun i =>
    .obj [("name", .str ("Lead " ++ toString (i + 1))),
          ("title", jsOr jobTitle (.str "Executive")),
          ("company", .str ("Company " ++ toString (i + 1))),
          ("industry", jsOr industry (.str "Various")),
          ("size", jsOr companySize (.str "50-200")),
          ("location", jsOr location (.str "United States")),
          ("email", .str ("lead" ++ toString (i + 1) ++ "@example.com"))]

/-- One bullet line of `LeadTools.formatLeads`. -/
def formatLead (lead : JsVal) : String :=
  "• " ++ jsDisplay (jsField lead "name") ++ " - " ++
    jsDisplay (jsField lead "title") ++ " at " ++
    jsDisplay (jsField lead "company") ++ " (" ++
    jsDisplay (jsField lead "industry") ++ ", " ++
    jsDisplay (jsField lead "size") ++ " employees, " ++
    jsDisplay (jsField lead "location") ++ ")"

/-- `LeadTools.formatLeads(leads)`. -/
def formatLeads (leads : List JsVal) : String :=
  String.intercalate "\n" (leads.map formatLead)

/-- `LeadTools.searchLeads(args)`, threaded through the explicit state of
this handler instance: the rate-limit bucket for `search-leads` and the
call time `now`.  The result carries the response envelope, the post-call
bucket, and a flag recording whether control passed the admission check
(i.e. whether the handler body after `checkRateLimit` executed).
The `requestId` parameter abstracts `this.generateRequestId()`. -/
def searchLeads (ctx : HandlerCtx) (bucket : List Int) (now : Int)
    (args : JsVal) (requestId : String) : IToolResponse × List Int × Bool :=
  match checkRateLimit "search-leads" bucket now ctx.maxRequestsPerMinute with
  | .error msg =>
    (handleError (.err msg) "search-leads" (some requestId), bucket, false)
  | .ok bucket1 =>
    match validateRequired args [] "search-leads" with
    | .error msg =>
      (handleError (.err msg) "search-leads" (some requestId), bucket1, true)
    | .ok _ =>
      let jobTitle := jsField args "jobTitle"
      let industry := jsField args "industry"
      let companySize := jsField args "companySize"
      let location := jsField args "location"
      -- destructuring default `limit = 25` applies when the field is undefined
      let limit := match jsField args "limit" with
        | .undefined => .num 25
        | v => v
      if !jsTruthy jobTitle && !jsTruthy industry && !jsTruthy companySize &&
          !jsTruthy location then
        (handleError (.err "At least one search criterion must be provided")
          "search-leads" (some requestId), bucket1, true)
      else
        -- `if (this.apiClient && !this.isMockMode)` reduces to the client test
        let results :=
          if ctx.hasApiClient then
            let searchParams : JsVal := .obj
              [("job_titles", if jsTruthy jobTitle then .arr [jobTitle] else .undefined),
               ("industries", if jsTruthy industry then .arr [industry] else .undefined),
               ("company_sizes", if jsTruthy companySize then .arr [companySize] else .undefined),
               ("locations", if jsTruthy location then .arr [location] else .undefined),
               ("limit", limit)]
            match ctx.searchPeople searchParams with
            | .ok people => people
            | .error _ =>
              generateMockLeads jobTitle industry companySize location limit
          else
            generateMockLeads jobTitle industry companySize location limit
        let message := "Found " ++ toString results.length ++
          " leads matching your criteria:\n\n" ++ formatLeads results
        (createSuccessResponse ctx.stringify (.arr results) (some message)
          (some requestId), bucket1, true)

/-- The per-contact enrichment object of `LeadTools.bulkEnrichContacts`
(`{...contact, enriched: {...}}`; a later duplicate key overwrites the
spread one, and spreading a non-object contributes no named fields). -/
def enrichContact (revealPersonalEmails revealPhoneNumbers : JsVal) (i : Nat)
    (c : JsVal) : JsVal :=
  let fields := match c with
    | .obj fs => fs
    | _ => []
  .obj (fields.filter (fun p => p.1 ≠ "enriched") ++
    [("enriched", .obj
      [("title", jsOr (jsField c "title") (.str "Executive")),
       ("company", jsOr (jsField c "company") (.str "Unknown Company")),
       ("linkedIn", jsOr (jsField c "linkedinUrl")
          (.str ("https://linkedin.com/in/person" ++ toString i))),
       ("phone", if jsTruthy revealPhoneNumbers
          then .str ("+1-555-010" ++ toString i) else .null),
       ("personalEmail", if jsTruthy revealPersonalEmails
          then .str ("personal" ++ toString i ++ "@email.com") else .null),
       ("industry", .str "Technology"),
       ("location", .str "San Francisco, CA")])])

/-- `LeadTools.bulkEnrichContacts(args)`, with the same state threading as
`searchLeads`.  Calling `.map` on a non-array `contacts` value raises the
runtime TypeError, modelled as a thrown Error. -/
def bulkEnrichContacts (ctx : HandlerCtx) (bucket : List Int) (now : Int)
    (args : JsVal) (requestId : String) : IToolResponse × List Int × Bool :=
  match checkRateLimit "bulk-enrich-contacts" bucket now
      ctx.maxRequestsPerMinute with
  | .error msg =>
    (handleError (.err msg) "bulk-enrich-contacts" (some requestId), bucket,
      false)
  | .ok bucket1 =>
    match validateRequired args ["contacts"] "bulk-enrich-contacts" with
    | .error msg =>
      (handleError (.err msg) "bulk-enrich-contacts" (some requestId), bucket1,
        true)
    | .ok _ =>
      let contacts := jsField args "contacts"
      let revealPersonalEmails := match jsField args "revealPersonalEmails" with
        | .undefined => .bool false
        | v => v
      let revealPhoneNumbers := match jsField args "revealPhoneNumbers" with
        | .undefined => .bool false
        | v => v
      if jsLen contacts == some 0 then
        (handleError (.err "No contacts provided for enrichment")
          "bulk-enrich-contacts" (some requestId), bucket1, true)
      else if (match jsLen contacts with
          | some n => decide (10 < n)
          | none => false) then
        (handleError (.err "Maximum 10 contacts can be enriched in a single request")
          "bulk-enrich-contacts" (some requestId), bucket1, true)
      else
        match contacts with
        | .arr l =>
          let enrichedContacts := l.enum.map fun p =>
            enrichContact revealPersonalEmails revealPhoneNumbers p.1 p.2
          (createSuccessResponse ctx.stringify (.arr enrichedContacts)
            (some ("Successfully enriched " ++ toString enrichedContacts.length ++
              " contacts")) (some requestId), bucket1, true)
        | _ =>
          (handleError (.err "contacts.map is not a function")
            "bulk-enrich-contacts" (some requestId), bucket1, true)

/-! ## ApolloToolsOrchestrator (`src/apollo-tools-orchestrator.ts`) -/

/-- `ApolloToolsOrchestrator.isLeadTool(name)`. -/
def isLeadTool (name : String) : Bool :=
  ["search-leads", "search-organizations", "bulk-enrich-contacts",
   "bulk-enrich-organizations"].contains name

/-- `ApolloToolsOrchestrator.isContactTool(name)`. -/
def isContactTool (name : String) : Bool :=
  ["enrich-contact", "create-contact", "update-contact", "search-contacts",
   "get-account-data"].contains name

/-- `ApolloToolsOrchestrator.isSequenceTool(name)`. -/
def isSequenceTool (name : String) : Bool :=
  ["create-email-sequence", "search-sequences", "update-sequence",
   "get-sequence-stats", "add-contacts-to-sequence",
   "remove-contacts-from-sequence"].contains name

/-- `ApolloToolsOrchestrator.isDealTool(name)`. -/
def isDealTool (name : String) : Bool :=
  ["create-deal", "update-deal", "search-deals"].contains name

/-- `ApolloToolsOrchestrator.isAnalyticsTool(name)`. -/
def isAnalyticsTool (name : String) : Bool :=
  ["track-engagement", "search-news", "search-job-postings", "get-api-usage",
   "create-task", "log-call", "search-tasks"].contains name

/-- `ApolloToolsOrchestrator.getAvailableTools()`. -/
def getAvailableTools : List String :=
  ["search-leads", "search-organizations", "bulk-enrich-contacts",
   "bulk-enrich-organizations",
   "enrich-contact", "create-contact", "update-contact", "search-contacts",
   "get-account-data",
   "create-email-sequence", "search-sequences", "update-sequence",
   "get-sequence-stats", "add-contacts-to-sequence",
   "remove-contacts-from-sequence",
   "create-deal", "update-deal", "search-deals",
   "track-engagement", "search-news", "search-job-postings", "get-api-usage",
   "create-task", "log-call", "search-tasks"]

/-- The specialized tool-handler methods the orchestrator dispatches to.
Their bodies are external to the dispatch core, so each is an abstract
function from the argument bag to a returned envelope or a thrown value. -/
structure Handlers where
  searchLeadsH : JsVal → Except Thrown IToolResponse
  searchOrganizationsH : JsVal → Except Thrown IToolResponse
  bulkEnrichContactsH : JsVal → Except Thrown IToolResponse
  bulkEnrichOrganizationsH : JsVal → Except Thrown IToolResponse
  enrichContactH : JsVal → Except Thrown IToolResponse
  createContactH : JsVal → Except Thrown IToolResponse
  updateContactH : JsVal → Except Thrown IToolResponse
  searchContactsH : JsVal → Except Thrown IToolResponse
  getAccountDataH : JsVal → Except Thrown IToolResponse
  createEmailSequenceH : JsVal → Except Thrown IToolResponse
  searchSequencesH : JsVal → Except Thrown IToolResponse
  updateSequenceH : JsVal → Except Thrown IToolResponse
  getSequenceStatsH : JsVal → Except Thrown IToolResponse
  addContactsToSequenceH : JsVal → Except Thrown IToolResponse
  removeContactsFromSequenceH : JsVal → Except Thrown IToolResponse
  createDealH : JsVal → Except Thrown IToolResponse
  updateDealH : JsVal → Except Thrown IToolResponse
  searchDealsH : JsVal → Except Thrown IToolResponse
  trackEngagementH : JsVal → Except Thrown IToolResponse
  searchNewsH : JsVal → Except Thrown IToolResponse
  searchJobPostingsH : JsVal → Except Thrown IToolResponse
  getApiUsageH : JsVal → Except Thrown IToolResponse
  createTaskH : JsVal → Except Thrown IToolResponse
  logCallH : JsVal → Except Thrown IToolResponse
  searchTasksH : JsVal → Except Thrown IToolResponse

/-- `ApolloToolsOrchestrator.callLeadTool`. -/
def callLeadTool (h : Handlers) (name : String) (args : JsVal) :
    Except Thrown IToolResponse :=
  match name with
  | "search-leads" => h.searchLeadsH args
  | "search-organizations" => h.searchOrganizationsH args
  | "bulk-enrich-contacts" => h.bulkEnrichContactsH args
  | "bulk-enrich-organizations" => h.bulkEnrichOrganizationsH args
  | _ => .error (.err ("Invalid lead tool: " ++ name))

/-- `ApolloToolsOrchestrator.callContactTool`. -/
def callContactTool (h : Handlers) (name : String) (args : JsVal) :
    Except Thrown IToolResponse :=
  match name with
  | "enrich-contact" => h.enrichContactH args
  | "create-contact" => h.createContactH args
  | "update-contact" => h.updateContactH args
  | "search-contacts" => h.searchContactsH args
  | "get-account-data" => h.getAccountDataH args
  | _ => .error (.err ("Invalid contact tool: " ++ name))

/-- `ApolloToolsOrchestrator.callSequenceTool`. -/
def callSequenceTool (h : Handlers) (name : String) (args : JsVal) :
    Except Thrown IToolResponse :=
  match name with
  | "create-email-sequence" => h.createEmailSequenceH args
  | "search-sequences" => h.searchSequencesH args
  | "update-sequence" => h.updateSequenceH args
  | "get-sequence-stats" => h.getSequenceStatsH args
  | "add-contacts-to-sequence" => h.addContactsToSequenceH args
  | "remove-contacts-from-sequence" => h.removeContactsFromSequenceH args
  | _ => .error (.err ("Invalid sequence tool: " ++ name))

/-- `ApolloToolsOrchestrator.callDealTool`. -/
def callDealTool (h : Handlers) (name : String) (args : JsVal) :
    Except Thrown IToolResponse :=
  match name with
  | "create-deal" => h.createDealH args
  | "update-deal" => h.updateDealH args
  | "search-deals" => h.searchDealsH args
  | _ => .error (.err ("Invalid deal tool: " ++ name))

/-- `ApolloToolsOrchestrator.callAnalyticsTool`. -/
def callAnalyticsTool (h : Handlers) (name : String) (args : JsVal) :
    Except Thrown IToolResponse :=
  match name with
  | "track-engagement" => h.trackEngagementH args
  | "search-news" => h.searchNewsH args
  | "search-job-postings" => h.searchJobPostingsH args
  | "get-api-usage" => h.getApiUsageH args
  | "create-task" => h.createTaskH args
  | "log-call" => h.logCallH args
  | "search-tasks" => h.searchTasksH args
  | _ => .error (.err ("Invalid analytics tool: " ++ name))

/-- `ApolloToolsOrchestrator.dispatchTool(toolName, args)`. -/
def dispatchTool (h : Handlers) (toolName : String) (args : JsVal) :
    Except Thrown IToolResponse :=
  if isLeadTool toolName then callLeadTool h toolName args
  else if isContactTool toolName then callContactTool h toolName args
  else if isSequenceTool toolName then callSequenceTool h toolName args
  else if isDealTool toolName then callDealTool h toolName args
  else if isAnalyticsTool toolName then callAnalyticsTool h toolName args
  else
    .ok (ToolResponseBuilder.error ("Unknown tool: " ++ toolName)
      .invalidParameters none)

/-- `ApolloToolsOrchestrator.handleToolError(toolName, error)`: the
classification at the dispatch boundary. -/
def handleToolError (toolName : String) (e : Thrown) : IToolResponse :=
  match e with
  | .err msg =>
    if strIncludes msg "Rate limit exceeded" then
      ToolResponseBuilder.error msg .rateLimitExceeded none
    else if strIncludes msg "authentication" then
      ToolResponseBuilder.error msg .authenticationFailed none
    else if strIncludes msg "Missing required" then
      ToolResponseBuilder.error msg .invalidParameters none
    else
      ToolResponseBuilder.error
        ("Internal error in " ++ toolName ++ ": " ++ msg) .internalError none
  | .nonError s =>
    ToolResponseBuilder.error
      ("Internal error in " ++ toolName ++ ": " ++ s) .internalError none

/-- `ApolloToolsOrchestrator.handleToolCall(request)`: the dispatch entry
point.  The result type `Except Thrown IToolResponse` records whether the
method itself could propagate a thrown value; the theorems show it never
does. -/
def handleToolCall (h : Handlers) (name : String) (args : Option JsVal) :
    Except Thrown IToolResponse :=
  match args with
  | none =>
    .ok (ToolResponseBuilder.error "Missing required parameters"
      .invalidParameters none)
  | some a =>
    match dispatchTool h name a with
    | .ok r => .ok r
    | .error e => .ok (handleToolError name e)

/-! ## MCPServer (`src/server-refactored.ts`) -/

/-- `MCPServer.isInitializeRequest(body)`. -/
def isInitializeRequest (body : JsVal) : Bool :=
  match body with
  | .obj fs =>
    match fs.lookup "method" with
    | some (.str m) => m == "initialize"
    | _ => false
  | _ => false

/-- The outcome of `MCPServer.handlePostRequest`: the request was routed to
an existing transport, a new transport was created (carrying the generated
session id, if the SDK exposed one), or the fixed 400 protocol error was
written. -/
inductive PostOutcome where
  | reused : String → PostOutcome
  | created : Option String → PostOutcome
  | badRequest : String → PostOutcome
deriving Repr, DecidableEq

/-- `MCPServer.handlePostRequest(req, res)` over the explicit state of the
`transports` table (the list of live session ids).  `sessionId` is the
`mcp-session-id` header (`none` when the header is absent; the header test
`if (sessionId && ...)` is JavaScript truthiness, so an empty-string header
behaves like an absent one).  `newSessionId` abstracts the
`transport.sessionId` assigned by the SDK during initialization. -/
def handlePostRequest (transports : List String) (sessionId : Option String)
    (body : JsVal) (newSessionId : Option String) :
    PostOutcome × List String :=
  let sessionTruthy : Bool := match sessionId with
    | none => false
    | some s => s != ""
  if sessionTruthy && transports.contains (sessionId.getD "") then
    (.reused (sessionId.getD ""), transports)
  else if !sessionTruthy && isInitializeRequest body then
    match newSessionId with
    | some sid => (.created (some sid), transports ++ [sid])
    | none => (.created none, transports)
  else
    (.badRequest "Bad Request: invalid session ID or method.", transports)

/-! ## The SSE heartbeat (`MCPServer.streamMessages`) -/

/-- Events delivered to the streaming channel of one session after
`streamMessages` has installed the heartbeat interval: a timer tick whose
`transport.send` either succeeds or rejects, or the transport reporting
closure (`transport.onClose`). -/
inductive HbEvent where
  | tick : Bool → HbEvent
  | closeEvt : HbEvent
deriving Repr, DecidableEq

/-- Observable actions of the heartbeat machinery: a heartbeat notification
actually sent on the channel, or a `clearInterval` call. -/
inductive HbAction where
  | emit : HbAction
  | cancel : HbAction
deriving Repr, DecidableEq

/-- One scheduler step of the heartbeat state machine.  The state is whether
the interval is live.  A tick fires only while the interval is live; a
successful send emits the heartbeat, a rejected send runs the catch block
(`clearInterval`); the `onClose` callback always runs `clearInterval`. -/
def hbStep (active : Bool) (e : HbEvent) : Bool × List HbAction :=
  match e with
  | .closeEvt => (false, [.cancel])
  | .tick ok =>
    if active then
      if ok then (active, [.emit]) else (false, [.cancel])
    else
      (active, [])

/-- Run the heartbeat machine over a list of delivered events, collecting
the actions in order. -/
def hbRun (active : Bool) : List HbEvent → Bool × List HbAction
  | [] => (active, [])
  | e :: es =>
    let (a1, acts) := hbStep active e
    let (a2, rest) := hbRun a1 es
    (a2, acts ++ rest)

/-- The number of times the interval transitions from live to cancelled
along a run (an already-cancelled interval cannot be cancelled again;
further `clearInterval` calls are no-ops on it). -/
def hbCancelTransitions (active : Bool) : List HbEvent → Nat
  | [] => 0
  | e :: es =>
    let (a1, _) := hbStep active e
    (if active && !a1 then 1 else 0) + hbCancelTransitions a1 es

/-- A degenerate handler family: every specialized method throws a non-Error
value.  Used to instantiate the dispatch theorems at a concrete input. -/
def trivialHandlers : Handlers :=
  { searchLeadsH := fun _ => .error (.nonError "boom"),
    searchOrganizationsH := fun _ => .error (.nonError "boom"),
    bulkEnrichContactsH := fun _ => .error (.nonError "boom"),
    bulkEnrichOrganizationsH := fun _ => .error (.nonError "boom"),
    enrichContactH := fun _ => .error (.nonError "boom"),
    createContactH := fun _ => .error (.nonError "boom"),
    updateContactH := fun _ => .error (.nonError "boom"),
    searchContactsH := fun _ => .error (.nonError "boom"),
    getAccountDataH := fun _ => .error (.nonError "boom"),
    createEmailSequenceH := fun _ => .error (.nonError "boom"),
    searchSequencesH := fun _ => .error (.nonError "boom"),
    updateSequenceH := fun _ => .error (.nonError "boom"),
    getSequenceStatsH := fun _ => .error (.nonError "boom"),
    addContactsToSequenceH := fun _ => .error (.nonError "boom"),
    removeContactsFromSequenceH := fun _ => .error (.nonError "boom"),
    createDealH := fun _ => .error (.nonError "boom"),
    updateDealH := fun _ => .error (.nonError "boom"),
    searchDealsH := fun _ => .error (.nonError "boom"),
    trackEngagementH := fun _ => .error (.nonError "boom"),
    searchNewsH := fun _ => .error (.nonError "boom"),
    searchJobPostingsH := fun _ => .error (.nonError "boom"),
    getApiUsageH := fun _ => .error (.nonError "boom"),
    createTaskH := fun _ => .error (.nonError "boom"),
    logCallH := fun _ => .error (.nonError "boom"),
    searchTasksH := fun _ => .error (.nonError "boom") }

/-- A concrete handler context for evaluating the lead tools: no API client
(mock mode), the test-environment quota of 3, and a trivial
serialization. -/
def ctxMock : HandlerCtx :=
  { hasApiClient := false,
    maxRequestsPerMinute := 3,
    stringify := fun _ => "null",
    searchPeople := fun _ => .error (.nonError "no client") }

/-! ## Helper lemmas -/

theorem charsLead_append_left (p a b : List Char)
    (h : charsLead p a = true) : charsLead p (a ++ b) = true := by
  induction p generalizing a with
  | nil => simp [charsLead]
  | cons x xs ih =>
    cases a with
    | nil => simp [charsLead] at h
    | cons y ys =>
      simp only [charsLead, Bool.and_eq_true] at h ⊢
      exact ⟨h.1, by simpa using ih ys h.2⟩

theorem charsInside_of_lead (p l : List Char)
    (h : charsLead p l = true) : charsInside p l = true := by
  cases l with
  | nil =>
    cases p with
    | nil => simp [charsInside]
    | cons x xs => simp [charsLead] at h
  | cons b bs => simp [charsInside, h]

theorem charsLead_of_append (p a b : List Char) :
    charsLead p (a ++ b) =
      (charsLead (p.take a.length) a && charsLead (p.drop a.length) b) := by
  induction a generalizing p with
  | nil => simp [charsLead]
  | cons x xs ih =>
    cases p with
    | nil => simp [charsLead]
    | cons y ys => simp [charsLead, ih, Bool.and_assoc]

/-- The message thrown by `checkRateLimit` always matches the
`Rate limit exceeded` test of the classifiers, whatever the tool name and
quota. -/
theorem includes_rateLimit_msg (toolName : String) (q : Nat) :
    strIncludes ("Rate limit exceeded for " ++ toolName ++ ". Maximum " ++
      toString q ++ " requests per minute allowed.") "Rate limit exceeded" = true := by
  apply charsInside_of_lead
  simp only [String.data_append, List.append_assoc]
  apply charsLead_append_left
  decide

/-- Whatever is thrown, `BaseToolHandler.handleError` builds an error
envelope whose code is one of its five classifications. -/
theorem handleError_classified (e : Thrown) (t : String) (rid : Option String) :
    (handleError e t rid).isError = true ∧
    (handleError e t rid).content ≠ [] ∧
    ∃ c, (handleError e t rid).errorCode = some c ∧
      c ∈ ["RATE_LIMIT_EXCEEDED", "AUTHENTICATION_FAILED", "NETWORK_ERROR",
           "API_ERROR", "INTERNAL_ERROR"] := by
  cases e with
  | err msg =>
    simp only [handleError]
    split_ifs <;>
      simp [ToolResponseBuilder.error, ErrorCode.code]
  | nonError s =>
    simp [handleError, ToolResponseBuilder.error, ErrorCode.code]

/-- Whatever is thrown, `ApolloToolsOrchestrator.handleToolError` builds an
error envelope whose code is one of its four classifications. -/
theorem handleToolError_classified (t : String) (e : Thrown) :
    (handleToolError t e).isError = true ∧
    (handleToolError t e).content ≠ [] ∧
    ∃ c, (handleToolError t e).errorCode = some c ∧
      c ∈ ["RATE_LIMIT_EXCEEDED", "AUTHENTICATION_FAILED",
           "INVALID_PARAMETERS", "INTERNAL_ERROR"] := by
  cases e with
  | err msg =>
    simp only [handleToolError]
    split_ifs <;>
      simp [ToolResponseBuilder.error, ErrorCode.code]
  | nonError s =>
    simp [handleToolError, ToolResponseBuilder.error, ErrorCode.code]

/-- Once the heartbeat interval is cancelled it stays cancelled and no
heartbeat is ever sent again. -/
theorem hbRun_inactive (evs : List HbEvent) :
    (hbRun false evs).1 = false ∧ (hbRun false evs).2.count HbAction.emit = 0 := by
  induction evs with
  | nil => simp [hbRun]
  | cons e es ih =>
    cases e with
    | closeEvt => simpa [hbRun, hbStep] using ih
    | tick ok => simpa [hbRun, hbStep] using ih

/-- A cancelled interval never transitions again. -/
theorem hbCancelTransitions_inactive (evs : List HbEvent) :
    hbCancelTransitions false evs = 0 := by
  induction evs with
  | nil => simp [hbCancelTransitions]
  | cons e es ih =>
    cases e with
    | closeEvt => simpa [hbCancelTransitions, hbStep] using ih
    | tick ok => simpa [hbCancelTransitions, hbStep] using ih

/-- A name accepted by `isLeadTool` is in the registration. -/
theorem isLeadTool_mem (name : String) (h : isLeadTool name = true) :
    name ∈ getAvailableTools := by
  simp only [isLeadTool, List.contains_cons, List.contains_nil,
    Bool.or_eq_true, beq_iff_eq] at h
  simp only [getAvailableTools, List.mem_cons, List.not_mem_nil]
  tauto

/-- A name accepted by `isContactTool` is in the registration. -/
theorem isContactTool_mem (name : String) (h : isContactTool name = true) :
    name ∈ getAvailableTools := by
  simp only [isContactTool, List.contains_cons, List.contains_nil,
    Bool.or_eq_true, beq_iff_eq] at h
  simp only [getAvailableTools, List.mem_cons, List.not_mem_nil]
  tauto

/-- A name accepted by `isSequenceTool` is in the registration. -/
theorem isSequenceTool_mem (name : String) (h : isSequenceTool name = true) :
    name ∈ getAvailableTools := by
  simp only [isSequenceTool, List.contains_cons, List.contains_nil,
    Bool.or_eq_true, beq_iff_eq] at h
  simp only [getAvailableTools, List.mem_cons, List.not_mem_nil]
  tauto

/-- A name accepted by `isDealTool` is in the registration. -/
theorem isDealTool_mem (name : String) (h : isDealTool name = true) :
    name ∈ getAvailableTools := by
  simp only [isDealTool, List.contains_cons, List.contains_nil,
    Bool.or_eq_true, beq_iff_eq] at h
  simp only [getAvailableTools, List.mem_cons, List.not_mem_nil]
  tauto

/-- A name accepted by `isAnalyticsTool` is in the registration. -/
theorem isAnalyticsTool_mem (name : String) (h : isAnalyticsTool name = true) :
    name ∈ getAvailableTools := by
  simp only [isAnalyticsTool, List.contains_cons, List.contains_nil,
    Bool.or_eq_true, beq_iff_eq] at h
  simp only [getAvailableTools, List.mem_cons, List.not_mem_nil]
  tauto

/-! ## Claim theorems -/

/-- C1: for every tools/call with a non-null argument bag,
`ApolloToolsOrchestrator.handleToolCall` returns a response envelope and
never propagates a thrown value: any failure raised during dispatch or by a
handler — including thrown values that are not Error objects — is caught at
the dispatch boundary and converted by `handleToolError` into an error
envelope whose code belongs to the closed taxonomy. -/
theorem handleToolCall_never_throws :
    ∀ (h : Handlers) (name : String) (a : JsVal),
      (∃ r, handleToolCall h name (some a) = .ok r) ∧
      (∀ e, dispatchTool h name a = .error e →
        handleToolCall h name (some a) = .ok (handleToolError name e) ∧
        (handleToolError name e).isError = true ∧
        ∃ c, (handleToolError name e).errorCode = some c ∧ c ∈ errorCodeSet) := by
  intro h name a
  constructor
  · cases hd : dispatchTool h name a with
    | ok r => exact ⟨r, by simp [handleToolCall, hd]⟩
    | error e => exact ⟨handleToolError name e, by simp [handleToolCall, hd]⟩
  · intro e he
    refine ⟨by simp [handleToolCall, he],
      (handleToolError_classified name e).1, ?_⟩
    obtain ⟨c, hc, hmem⟩ := (handleToolError_classified name e).2.2
    refine ⟨c, hc, ?_⟩
    simp only [List.mem_cons, List.not_mem_nil, or_false] at hmem
    rcases hmem with rfl | rfl | rfl | rfl <;> simp [errorCodeSet]

/-- Witness for C1: a handler that throws a non-Error value is converted to
an envelope at the boundary. -/
theorem handleToolCall_never_throws_witness :
    dispatchTool trivialHandlers "search-leads" (JsVal.obj []) =
      .error (.nonError "boom") ∧
    handleToolCall trivialHandlers "search-leads" (some (JsVal.obj [])) =
      .ok (handleToolError "search-leads" (.nonError "boom")) := by
  have hd : dispatchTool trivialHandlers "search-leads" (JsVal.obj []) =
      .error (.nonError "boom") := rfl
  exact ⟨hd, ((handleToolCall_never_throws trivialHandlers "search-leads"
    (JsVal.obj [])).2 _ hd).1⟩

/-- C3: an operation name outside the handler registration yields an
`INVALID_PARAMETERS` error envelope whose message contains the operation
name. -/
theorem unknownTool_invalidParameters :
    ∀ (h : Handlers) (name : String) (a : JsVal),
      name ∉ getAvailableTools →
      handleToolCall h name (some a) =
        .ok (ToolResponseBuilder.error ("Unknown tool: " ++ name)
          .invalidParameters none) ∧
      (ToolResponseBuilder.error ("Unknown tool: " ++ name) .invalidParameters
        none).errorCode = some "INVALID_PARAMETERS" ∧
      ∃ pre, "Unknown tool: " ++ name = pre ++ name := by
  intro h name a hmem
  have hl : isLeadTool name = false := by
    cases hb : isLeadTool name with
    | false => rfl
    | true => exact absurd (isLeadTool_mem name hb) hmem
  have hc : isContactTool name = false := by
    cases hb : isContactTool name with
    | false => rfl
    | true => exact absurd (isContactTool_mem name hb) hmem
  have hs : isSequenceTool name = false := by
    cases hb : isSequenceTool name with
    | false => rfl
    | true => exact absurd (isSequenceTool_mem name hb) hmem
  have hd2 : isDealTool name = false := by
    cases hb : isDealTool name with
    | false => rfl
    | true => exact absurd (isDealTool_mem name hb) hmem
  have ha : isAnalyticsTool name = false := by
    cases hb : isAnalyticsTool name with
    | false => rfl
    | true => exact absurd (isAnalyticsTool_mem name hb) hmem
  refine ⟨?_, rfl, ⟨"Unknown tool: ", rfl⟩⟩
  simp [handleToolCall, dispatchTool, hl, hc, hs, hd2, ha]

/-- Witness for C3: `update-task` is documented as a tool of the analytics
group but is absent from the registration, so dispatching it yields the
unknown-tool envelope. -/
theorem unknownTool_invalidParameters_witness :
    "update-task" ∉ getAvailableTools ∧
    handleToolCall trivialHandlers "update-task" (some (JsVal.obj [])) =
      .ok (ToolResponseBuilder.error "Unknown tool: update-task"
        .invalidParameters none) := by
  have hm : "update-task" ∉ getAvailableTools := by decide
  exact ⟨hm, (unknownTool_invalidParameters trivialHandlers "update-task"
    (JsVal.obj []) hm).1⟩

/-- C4: every envelope the three builders produce has a non-empty content
list and satisfies `isError = true` iff an errorCode is present; success and
mock envelopes carry no code and error envelopes carry one from the closed
set. -/
theorem envelope_invariants :
    ∀ (text : String) (rid : Option String) (c : ErrorCode) (mockData : String),
      ((ToolResponseBuilder.success text rid).isError = true ↔
        ((ToolResponseBuilder.success text rid).errorCode).isSome = true) ∧
      ((ToolResponseBuilder.error text c rid).isError = true ↔
        ((ToolResponseBuilder.error text c rid).errorCode).isSome = true) ∧
      ((ToolResponseBuilder.mockResponse mockData rid).isError = true ↔
        ((ToolResponseBuilder.mockResponse mockData rid).errorCode).isSome = true) ∧
      (ToolResponseBuilder.success text rid).content ≠ [] ∧
      (ToolResponseBuilder.error text c rid).content ≠ [] ∧
      (ToolResponseBuilder.mockResponse mockData rid).content ≠ [] ∧
      (ToolResponseBuilder.success text rid).errorCode = none ∧
      (ToolResponseBuilder.mockResponse mockData rid).errorCode = none ∧
      ∃ s, (ToolResponseBuilder.error text c rid).errorCode = some s ∧
        s ∈ errorCodeSet := by
  intro text rid c mockData
  refine ⟨by simp [ToolResponseBuilder.success],
    by simp [ToolResponseBuilder.error],
    by simp [ToolResponseBuilder.mockResponse],
    by simp [ToolResponseBuilder.success],
    by simp [ToolResponseBuilder.error],
    by simp [ToolResponseBuilder.mockResponse],
    rfl, rfl, ⟨c.code, rfl, ?_⟩⟩
  cases c <;> simp [ErrorCode.code, errorCodeSet]

/-- C2: the sliding-window admission of `checkRateLimit`:
(i) a call is admitted iff strictly fewer than `quota` recorded timestamps
lie strictly inside the trailing 60000 ms window, so exactly `quota`
admissions can succeed in any window; (ii) a timestamp whose age equals
the window duration is expired and has no effect (exclusive boundary);
(iii) after an admission at most `quota` in-window timestamps exist; and
(iv) a `searchLeads` call arriving when the quota is already consumed
returns a `RATE_LIMIT_EXCEEDED` error envelope, leaves the bucket
untouched, and the handler body after the admission check does not run. -/
theorem rateLimit_window_admission :
    (∀ (t : String) (bucket : List Int) (now : Int) (q : Nat),
      (∃ b, checkRateLimit t bucket now q = .ok b) ↔
        (bucket.filter (fun ts => now - 60000 < ts)).length < q) ∧
    (∀ (t : String) (bucket : List Int) (now : Int) (q : Nat),
      checkRateLimit t ((now - 60000) :: bucket) now q =
        checkRateLimit t bucket now q) ∧
    (∀ (t : String) (bucket : List Int) (now : Int) (q : Nat) (b : List Int),
      checkRateLimit t bucket now q = .ok b →
        (b.filter (fun ts => now - 60000 < ts)).length ≤ q) ∧
    (∀ (ctx : HandlerCtx) (bucket : List Int) (now : Int) (args : JsVal)
        (rid : String),
      ctx.maxRequestsPerMinute ≤
          (bucket.filter (fun ts => now - 60000 < ts)).length →
      (searchLeads ctx bucket now args rid).1.isError = true ∧
      (searchLeads ctx bucket now args rid).1.errorCode =
        some "RATE_LIMIT_EXCEEDED" ∧
      (searchLeads ctx bucket now args rid).2.1 = bucket ∧
      (searchLeads ctx bucket now args rid).2.2 = false) := by
  refine ⟨?_, ?_, ?_, ?_⟩
  · intro t bucket now q
    constructor
    · rintro ⟨b, hb⟩
      simp only [checkRateLimit] at hb
      split at hb
      · exact absurd hb (by simp)
      · omega
    · intro hlt
      simp only [checkRateLimit]
      rw [if_neg (by omega)]
      exact ⟨_, rfl⟩
  · intro t bucket now q
    simp [checkRateLimit, List.filter_cons]
  · intro t bucket now q b hb
    simp only [checkRateLimit] at hb
    split at hb
    · exact absurd hb (by simp)
    · rename_i hcond
      injection hb with hb
      rw [← hb, List.filter_append]
      have hidem : (List.filter (fun ts => decide (now - 60000 < ts))
            bucket).filter (fun ts => decide (now - 60000 < ts)) =
          List.filter (fun ts => decide (now - 60000 < ts)) bucket := by
        rw [List.filter_filter]
        apply List.filter_congr
        intro x _
        simp
      have h2 : List.filter (fun ts => decide (now - 60000 < ts)) [now] =
          [now] := by
        simp
      rw [hidem, h2, List.length_append]
      simp only [List.length_cons, List.length_nil]
      omega
  · intro ctx bucket now args rid hq
    have hrl : checkRateLimit "search-leads" bucket now
        ctx.maxRequestsPerMinute =
        .error ("Rate limit exceeded for " ++ "search-leads" ++ ". Maximum " ++
          toString ctx.maxRequestsPerMinute ++
          " requests per minute allowed.") := by
      simp only [checkRateLimit]
      rw [if_pos (by exact hq)]
    have hinc := includes_rateLimit_msg "search-leads" ctx.maxRequestsPerMinute
    simp only [searchLeads, hrl, handleError, hinc, if_pos,
      ToolResponseBuilder.error, ErrorCode.code]
    exact ⟨trivial, trivial, trivial, trivial⟩

/-- Witness for C2: with the test-environment quota of 3 and three in-window
timestamps, the fourth call is rejected with `RATE_LIMIT_EXCEEDED` and the
handler body does not run. -/
theorem rateLimit_window_admission_witness :
    ctxMock.maxRequestsPerMinute ≤
      (([0, 0, 0] : List Int).filter (fun ts => (0 : Int) - 60000 < ts)).length ∧
    (searchLeads ctxMock [0, 0, 0] 0 (JsVal.obj []) "r").1.errorCode =
      some "RATE_LIMIT_EXCEEDED" ∧
    (searchLeads ctxMock [0, 0, 0] 0 (JsVal.obj []) "r").2.2 = false := by
  have h := rateLimit_window_admission.2.2.2 ctxMock [0, 0, 0] 0
    (JsVal.obj []) "r" (by decide)
  exact ⟨by decide, h.2.1, h.2.2.2⟩

/-- C7: a rejected admission leaves the rate-limit tracker exactly as it
was — the `set` that appends a timestamp is only reached on admission, so a
rejected call never consumes a bucket slot; the new bucket of an admitted call is
the purged old bucket with the single timestamp `now` appended. -/
theorem rateLimit_reject_consumes_no_slot :
    ∀ (tracker : String → List Int) (toolName : String) (now : Int) (q : Nat),
      (∀ m, (runCheckRateLimit tracker toolName now q).1 = .error m →
        (runCheckRateLimit tracker toolName now q).2 = tracker) ∧
      (∀ b, checkRateLimit toolName (tracker toolName) now q = .ok b →
        b = ((tracker toolName).filter (fun ts => now - 60000 < ts)) ++ [now] ∧
        (runCheckRateLimit tracker toolName now q).2 toolName = b) := by
  intro tracker toolName now q
  constructor
  · intro m hm
    unfold runCheckRateLimit at hm ⊢
    split at hm
    · rfl
    · exact absurd hm (by simp)
  · intro b hb
    constructor
    · simp only [checkRateLimit] at hb
      split at hb
      · exact absurd hb (by simp)
      · injection hb with hb
        exact hb.symm
    · unfold runCheckRateLimit
      rw [hb]
      simp

/-- Witness for C7: a rejected call at quota 0 leaves the tracker pointwise
unchanged. -/
theorem rateLimit_reject_consumes_no_slot_witness :
    (runCheckRateLimit (fun _ => ([] : List Int)) "search-leads" 0 0).1 =
      .error ("Rate limit exceeded for " ++ "search-leads" ++ ". Maximum " ++
        toString (0 : Nat) ++ " requests per minute allowed.") ∧
    (runCheckRateLimit (fun _ => ([] : List Int)) "search-leads" 0 0).2 =
      (fun _ => ([] : List Int)) := by
  constructor
  · rfl
  · exact (rateLimit_reject_consumes_no_slot (fun _ => []) "search-leads" 0 0).1
      _ rfl

/-- Counterexample to C5 as stated: a `bulk-enrich-contacts` call whose
argument object lacks the required key `contacts` is classified by the
internal catch of the handler (`BaseToolHandler.handleError`, which has no
missing-parameter branch) and comes back with errorCode `API_ERROR`, not
`INVALID_PARAMETERS`. -/
theorem missingRequired_notInvalidParameters_cex :
    (bulkEnrichContacts ctxMock [] 0 (JsVal.obj []) "r").1.errorCode =
      some "API_ERROR" ∧
    (bulkEnrichContacts ctxMock [] 0 (JsVal.obj []) "r").1.errorCode ≠
      some "INVALID_PARAMETERS" := by
  constructor
  · rfl
  · decide

/-- C5 (amended): a call whose argument bag is an object lacking a declared
required key (or binding it to null or undefined) returns an error envelope
whose message names the missing field, but with errorCode `API_ERROR`: the
throw of `validateRequired` is caught inside the handler by
`BaseToolHandler.handleError`, whose classifier has no missing-parameter
branch (`handleToolError` in the orchestrator, which maps such messages to
`INVALID_PARAMETERS`, never sees them). -/
theorem missingRequired_apiError :
    ∀ (ctx : HandlerCtx) (bucket : List Int) (now : Int)
      (fs : List (String × JsVal)) (rid : String),
      (bucket.filter (fun ts => now - 60000 < ts)).length <
        ctx.maxRequestsPerMinute →
      fieldMissing (.obj fs) "contacts" = true →
      (bulkEnrichContacts ctx bucket now (.obj fs) rid).1.isError = true ∧
      (bulkEnrichContacts ctx bucket now (.obj fs) rid).1.errorCode =
        some "API_ERROR" ∧
      (bulkEnrichContacts ctx bucket now (.obj fs) rid).1.firstText =
        "API error in bulk-enrich-contacts: Missing required parameter for bulk-enrich-contacts: contacts" ∧
      ∃ pre post,
        (bulkEnrichContacts ctx bucket now (.obj fs) rid).1.firstText =
          pre ++ "contacts" ++ post := by
  intro ctx bucket now fs rid hadm hmiss
  have hrl : checkRateLimit "bulk-enrich-contacts" bucket now
      ctx.maxRequestsPerMinute =
      .ok ((bucket.filter (fun ts => now - 60000 < ts)) ++ [now]) := by
    simp only [checkRateLimit]
    rw [if_neg (by omega)]
  have hval : validateRequired (.obj fs) ["contacts"] "bulk-enrich-contacts" =
      .error "Missing required parameter for bulk-enrich-contacts: contacts" := by
    simp [validateRequired, validateRequired.checkFields, hmiss]
  have hres : (bulkEnrichContacts ctx bucket now (.obj fs) rid).1 =
      ToolResponseBuilder.error
        "API error in bulk-enrich-contacts: Missing required parameter for bulk-enrich-contacts: contacts"
        .apiError (some rid) := by
    have h1 : strIncludes
        "Missing required parameter for bulk-enrich-contacts: contacts"
        "Rate limit exceeded" = false := by decide
    have h2 : strIncludes
        "Missing required parameter for bulk-enrich-contacts: contacts"
        "authentication" = false := by decide
    have h3 : strIncludes
        "Missing required parameter for bulk-enrich-contacts: contacts"
        "network" = false := by decide
    have h4 : strIncludes
        "Missing required parameter for bulk-enrich-contacts: contacts"
        "fetch" = false := by decide
    simp [bulkEnrichContacts, hrl, hval, handleError, h1, h2, h3, h4]
  rw [hres]
  refine ⟨rfl, rfl, rfl, "API error in bulk-enrich-",
    ": Missing required parameter for bulk-enrich-contacts: contacts", ?_⟩
  simp only [ToolResponseBuilder.error, IToolResponse.firstText]
  decide

/-- Witness for C5 (amended): the empty object lacks `contacts`. -/
theorem missingRequired_apiError_witness :
    (([] : List Int).filter (fun ts => (0 : Int) - 60000 < ts)).length <
      ctxMock.maxRequestsPerMinute ∧
    fieldMissing (.obj []) "contacts" = true ∧
    (bulkEnrichContacts ctxMock [] 0 (JsVal.obj []) "req_1").1.errorCode =
      some "API_ERROR" := by
  refine ⟨by decide, rfl, ?_⟩
  exact (missingRequired_apiError ctxMock [] 0 [] "req_1" (by decide)
    rfl).2.1

/-- Counterexample to C6 as stated: `search-leads` with an empty argument
object yields errorCode `API_ERROR`, not `INVALID_PARAMETERS` — the
criterion error is caught by the internal catch of the handler, whose classifier
has no parameter branch. -/
theorem noCriteria_notInvalidParameters_cex :
    (searchLeads ctxMock [] 0 (JsVal.obj []) "r").1.errorCode =
      some "API_ERROR" ∧
    (searchLeads ctxMock [] 0 (JsVal.obj []) "r").1.errorCode ≠
      some "INVALID_PARAMETERS" ∧
    (searchLeads ctxMock [] 0 (JsVal.obj []) "r").1.firstText =
      "API error in search-leads: At least one search criterion must be provided" := by
  refine ⟨rfl, by decide, rfl⟩

/-- C6 (amended): `search-leads` called with an empty argument object
returns an error envelope whose message states that at least one search
criterion must be provided, but its errorCode is `API_ERROR` (the claim
expected `INVALID_PARAMETERS`): the thrown criterion error is classified by
`BaseToolHandler.handleError`, which falls through to the API branch. -/
theorem searchLeads_noCriteria_apiError :
    ∀ (ctx : HandlerCtx) (bucket : List Int) (now : Int) (rid : String),
      (bucket.filter (fun ts => now - 60000 < ts)).length <
        ctx.maxRequestsPerMinute →
      (searchLeads ctx bucket now (.obj []) rid).1.isError = true ∧
      (searchLeads ctx bucket now (.obj []) rid).1.errorCode =
        some "API_ERROR" ∧
      (searchLeads ctx bucket now (.obj []) rid).1.firstText =
        "API error in search-leads: At least one search criterion must be provided" ∧
      ∃ pre, (searchLeads ctx bucket now (.obj []) rid).1.firstText =
        pre ++ "At least one search criterion must be provided" := by
  intro ctx bucket now rid hadm
  have hrl : checkRateLimit "search-leads" bucket now
      ctx.maxRequestsPerMinute =
      .ok ((bucket.filter (fun ts => now - 60000 < ts)) ++ [now]) := by
    simp only [checkRateLimit]
    rw [if_neg (by omega)]
  have hres : (searchLeads ctx bucket now (.obj []) rid).1 =
      ToolResponseBuilder.error
        "API error in search-leads: At least one search criterion must be provided"
        .apiError (some rid) := by
    have h1 : strIncludes "At least one search criterion must be provided"
        "Rate limit exceeded" = false := by decide
    have h2 : strIncludes "At least one search criterion must be provided"
        "authentication" = false := by decide
    have h3 : strIncludes "At least one search criterion must be provided"
        "network" = false := by decide
    have h4 : strIncludes "At least one search criterion must be provided"
        "fetch" = false := by decide
    simp [searchLeads, hrl, validateRequired, validateRequired.checkFields,
      jsField, jsTruthy, handleError, h1, h2, h3, h4]
  rw [hres]
  refine ⟨rfl, rfl, rfl, "API error in search-leads: ", ?_⟩
  simp only [ToolResponseBuilder.error, IToolResponse.firstText]
  decide

/-- Witness for C6 (amended): a first call under the test quota. -/
theorem searchLeads_noCriteria_apiError_witness :
    (([] : List Int).filter (fun ts => (0 : Int) - 60000 < ts)).length <
      ctxMock.maxRequestsPerMinute ∧
    (searchLeads ctxMock [] 0 (JsVal.obj []) "req_2").1.errorCode =
      some "API_ERROR" := by
  refine ⟨by decide, ?_⟩
  exact (searchLeads_noCriteria_apiError ctxMock [] 0 "req_2" (by decide)).2.1

/-- C8: a POST request bearing a session id that is not in the live
transport table gets the fixed invalid-session protocol error, and the
transport table is unchanged — no session is silently created.  (An empty
header value is JavaScript-falsy and therefore does not bear a session
id.) -/
theorem unknownSession_badRequest :
    ∀ (transports : List String) (sid : String) (body : JsVal)
      (newId : Option String),
      sid ≠ "" →
      transports.contains sid = false →
      handlePostRequest transports (some sid) body newId =
        (.badRequest "Bad Request: invalid session ID or method.",
          transports) := by
  intro transports sid body newId hne hmem
  have h1 : (sid != "") = true := by simpa using hne
  have h2 : sid ∉ transports := by simpa using hmem
  simp [handlePostRequest, h1, hmem, h2]

/-- Witness for C8: an unknown id against a one-session table. -/
theorem unknownSession_badRequest_witness :
    ("zzz" : String) ≠ "" ∧
    (["abc"] : List String).contains "zzz" = false ∧
    handlePostRequest ["abc"] (some "zzz")
        (JsVal.obj [("method", JsVal.str "initialize")]) (some "new-id") =
      (.badRequest "Bad Request: invalid session ID or method.", ["abc"]) := by
  refine ⟨by decide, by decide, ?_⟩
  exact unknownSession_badRequest ["abc"] "zzz"
    (JsVal.obj [("method", JsVal.str "initialize")]) (some "new-id")
    (by decide) (by decide)

/-- C9: once the transport reports closure the heartbeat interval is
cancelled and no heartbeat notification is emitted afterward, whatever
events preceded or follow the close; and over the whole run the interval
transitions from live to cancelled exactly once (the cancellation is
effective once — later `clearInterval` calls act on an already-cancelled
timer). -/
theorem heartbeat_silent_after_close :
    ∀ (pre post : List HbEvent),
      (hbRun (hbRun true pre).1 (HbEvent.closeEvt :: post)).2.count
        HbAction.emit = 0 ∧
      hbCancelTransitions true (pre ++ HbEvent.closeEvt :: post) = 1 := by
  intro pre post
  constructor
  · have h := hbRun_inactive post
    simp [hbRun, hbStep, h.2]
  · induction pre with
    | nil =>
      simp [hbCancelTransitions, hbStep,
        hbCancelTransitions_inactive post]
    | cons e es ih =>
      cases e with
      | closeEvt =>
        simp [hbCancelTransitions, hbStep,
          hbCancelTransitions_inactive (es ++ HbEvent.closeEvt :: post)]
      | tick ok =>
        cases ok with
        | true => simpa [hbCancelTransitions, hbStep] using ih
        | false =>
          simp [hbCancelTransitions, hbStep,
            hbCancelTransitions_inactive (es ++ HbEvent.closeEvt :: post)]

theorem charsLead_refl (p : List Char) : charsLead p p = true := by
  induction p with
  | nil => rfl
  | cons x xs ih => simp [charsLead, ih]

/-- A string beginning with `Found ` (the success message of `searchLeads`)
never passes the `[MOCK MODE] ` start test. -/
theorem found_not_mock_led (rest : List Char) :
    charsLead ("[MOCK MODE] ".data) ("Found ".data ++ rest) = false := by
  rw [charsLead_of_append]
  have h : charsLead (("[MOCK MODE] ".data).take (("Found ".data).length))
      ("Found ".data) = false := by decide
  rw [h, Bool.false_and]

/-- `handleError` never selects `MOCK_MODE` and always marks the envelope as
an error. -/
theorem handleError_not_mock (e : Thrown) (t : String) (rid : Option String) :
    (handleError e t rid).errorCode ≠ some "MOCK_MODE" ∧
    (handleError e t rid).isError = true := by
  obtain ⟨h1, _, c, hc, hmem⟩ := handleError_classified e t rid
  refine ⟨?_, h1⟩
  rw [hc]
  simp only [List.mem_cons, List.not_mem_nil, or_false] at hmem
  rcases hmem with rfl | rfl | rfl | rfl | rfl <;> simp

/-- Every run of `searchLeads` either ends in the rejected-admission branch,
in a caught-then-classified error, or in the success envelope built from
the `Found …` message. -/
theorem searchLeads_shape (ctx : HandlerCtx) (bucket : List Int) (now : Int)
    (args : JsVal) (rid : String) :
    (∃ e, searchLeads ctx bucket now args rid =
      (handleError e "search-leads" (some rid), bucket, false)) ∨
    (∃ e b1, searchLeads ctx bucket now args rid =
      (handleError e "search-leads" (some rid), b1, true)) ∨
    (∃ results b1, searchLeads ctx bucket now args rid =
      (createSuccessResponse ctx.stringify (.arr results)
        (some ("Found " ++ toString (List.length results) ++
          " leads matching your criteria:\n\n" ++ formatLeads results))
        (some rid), b1, true)) := by
  unfold searchLeads
  cases checkRateLimit "search-leads" bucket now ctx.maxRequestsPerMinute with
  | error msg => exact Or.inl ⟨.err msg, rfl⟩
  | ok b1 =>
    cases validateRequired args [] "search-leads" with
    | error msg => exact Or.inr (Or.inl ⟨.err msg, b1, rfl⟩)
    | ok u =>
      dsimp only
      split
      · exact Or.inr (Or.inl ⟨.err "At least one search criterion must be provided", b1, rfl⟩)
      · exact Or.inr (Or.inr ⟨_, b1, rfl⟩)

/-- Counterexample to C10 as stated: a mock-mode `search-leads` call (no API
client) produces a success envelope whose text begins with `Found …`, not
with the `[MOCK MODE] ` tag — the handler builds its mock-path response
with `createSuccessResponse`, never with `mockResponse`. -/
theorem mockPath_unprefixed_cex :
    (searchLeads ctxMock [] 0
      (JsVal.obj [("jobTitle", JsVal.str "Engineer")]) "r").1.isError =
      false ∧
    (searchLeads ctxMock [] 0
      (JsVal.obj [("jobTitle", JsVal.str "Engineer")]) "r").1.errorCode =
      none ∧
    strStartsWith (searchLeads ctxMock [] 0
      (JsVal.obj [("jobTitle", JsVal.str "Engineer")]) "r").1.firstText
      "[MOCK MODE] " = false := by
  refine ⟨rfl, rfl, ?_⟩
  decide

/-- C10 (amended): no embedded operation ever returns an envelope with
errorCode `MOCK_MODE` — in offline mode every `searchLeads` outcome is
either a classified error with a different code or a success envelope with
no code; the `[MOCK MODE] ` prefix appears exactly on envelopes built by
`ToolResponseBuilder.mockResponse`, which the mock code path of the
handlers does not call, so mock-path success text is unprefixed. -/
theorem mockMode_success_unprefixed :
    ∀ (ctx : HandlerCtx) (bucket : List Int) (now : Int) (args : JsVal)
      (rid : String),
      ctx.hasApiClient = false →
      ((searchLeads ctx bucket now args rid).1.errorCode ≠
        some "MOCK_MODE") ∧
      ((searchLeads ctx bucket now args rid).1.isError = false →
        (searchLeads ctx bucket now args rid).1.errorCode = none ∧
        strStartsWith (searchLeads ctx bucket now args rid).1.firstText
          "[MOCK MODE] " = false) ∧
      (∀ (d : String) (rid2 : Option String),
        strStartsWith (ToolResponseBuilder.mockResponse d rid2).firstText
          "[MOCK MODE] " = true) := by
  intro ctx bucket now args rid hmock
  have hmain : ((searchLeads ctx bucket now args rid).1.errorCode ≠
      some "MOCK_MODE") ∧
      ((searchLeads ctx bucket now args rid).1.isError = false →
        (searchLeads ctx bucket now args rid).1.errorCode = none ∧
        strStartsWith (searchLeads ctx bucket now args rid).1.firstText
          "[MOCK MODE] " = false) := by
    rcases searchLeads_shape ctx bucket now args rid with
      ⟨e, hsh⟩ | ⟨e, b1, hsh⟩ | ⟨results, b1, hsh⟩
    · rw [hsh]
      obtain ⟨hne, herr⟩ := handleError_not_mock e "search-leads" (some rid)
      exact ⟨hne, fun hfalse => absurd (herr ▸ hfalse) (by decide)⟩
    · rw [hsh]
      obtain ⟨hne, herr⟩ := handleError_not_mock e "search-leads" (some rid)
      exact ⟨hne, fun hfalse => absurd (herr ▸ hfalse) (by decide)⟩
    · rw [hsh]
      refine ⟨by simp [createSuccessResponse, ToolResponseBuilder.success],
        fun _ => ⟨rfl, ?_⟩⟩
      simp only [createSuccessResponse, ToolResponseBuilder.success,
        IToolResponse.firstText, strStartsWith, Option.getD_some,
        String.data_append, List.append_assoc]
      exact found_not_mock_led _
  refine ⟨hmain.1, hmain.2, ?_⟩
  intro d rid2
  simp only [ToolResponseBuilder.mockResponse, IToolResponse.firstText,
    strStartsWith, String.data_append]
  exact charsLead_append_left _ _ _ (charsLead_refl _)

/-- Witness for C10 (amended): the mock context has no API client. -/
theorem mockMode_success_unprefixed_witness :
    ctxMock.hasApiClient = false ∧
    (searchLeads ctxMock [] 0 (JsVal.obj [("industry", JsVal.str "Aviation")])
      "req_3").1.errorCode ≠ some "MOCK_MODE" := by
  refine ⟨rfl, ?_⟩
  exact (mockMode_success_unprefixed ctxMock [] 0
    (JsVal.obj [("industry", JsVal.str "Aviation")]) "req_3" rfl).1
